import Mathlib

/-!
Verification of the quote-selection core of the research-bookmarks backend.

The definitions below are a shallow embedding of
`backend/services/quote_clusterer.py`, `backend/services/category_matcher.py`,
`backend/services/digest_generator.py`, `backend/main.py` and
`backend/send_digest.py`.  Machine floats are idealised as exact rationals,
with an explicit non-real element (`PyFloat.nan`) for the result of a
zero-by-zero division; Python exceptions are modelled with `Except String`;
`datetime` values are modelled as integer day counts, so that
`timedelta(days=n)` becomes the integer `n`.
-/

namespace RB

instance {ε α : Type} [DecidableEq ε] [DecidableEq α] :
    DecidableEq (Except ε α) := fun x y =>
  match x, y with
  | Except.ok a, Except.ok b =>
    if h : a = b then isTrue (by rw [h])
    else isFalse (by intro hh; cases hh; exact h rfl)
  | Except.error e, Except.error f =>
    if h : e = f then isTrue (by rw [h])
    else isFalse (by intro hh; cases hh; exact h rfl)
  | Except.ok _, Except.error _ => isFalse (by intro hh; cases hh)
  | Except.error _, Except.ok _ => isFalse (by intro hh; cases hh)

/-- Model of a Python float: either an exact rational value or a non-real
(NaN).  The only operation that can produce `nan` in the embedded code is the
division in `cosine_similarity`, whose denominator is zero exactly when the
numerator is (a zero vector), matching IEEE 0.0/0.0 = NaN. -/
inductive PyFloat where
  | val (q : ℚ)
  | nan
  deriving DecidableEq, Repr

/-- Division of floats as used in `cosine_similarity`: a zero denominator
yields a non-real result (the reachable case is 0/0, IEEE NaN). -/
def pyDiv (x y : ℚ) : PyFloat :=
  if y = 0 then PyFloat.nan else PyFloat.val (x / y)

/-- Python comparison `sim >= threshold` on a float that may be NaN:
any comparison with NaN is false. -/
def pfGE (s : PyFloat) (t : ℚ) : Bool :=
  match s with
  | PyFloat.val q => decide (t ≤ q)
  | PyFloat.nan => false

/-- The dynamically-typed argument of `parse_embedding` (quote_clusterer.py
lines 12-27): `None`, an `np.ndarray`, a Python list, a string (whose
`json.loads` outcome is carried alongside the raw text, the JSON parser being
an external library: `parsed = none` models a malformed-JSON string), or any
other object. -/
inductive EmbInput where
  | null
  | ndarray (v : List ℚ)
  | list (v : List ℚ)
  | str (s : String) (parsed : Option (List ℚ))
  | other
  deriving DecidableEq, Repr

/-- Embedding of `parse_embedding` (quote_clusterer.py lines 12-27): `None`
stays `None`, arrays and lists parse to themselves, a string parses to its
JSON value or to `None` on a parse error (the bare `except` branch), and any
other input yields `None`. -/
def parse_embedding : EmbInput → Option (List ℚ)
  | EmbInput.null => Option.none
  | EmbInput.ndarray v => some v
  | EmbInput.list v => some v
  | EmbInput.str _ p => p
  | EmbInput.other => Option.none

/-- Python truthiness of the raw `embedding` field, used by the
`q.get('embedding')` filter in `find_quote_clusters` (line 69): `None` and
empty containers are falsy.  (NumPy arrays never reach this filter in the
source, the repository returns lists or strings; they are modelled with the
list rule.) -/
def embTruthy : EmbInput → Bool
  | EmbInput.null => false
  | EmbInput.ndarray v => !v.isEmpty
  | EmbInput.list v => !v.isEmpty
  | EmbInput.str s _ => !(s == "")
  | EmbInput.other => true

/-- Embedding of `np.dot` on two 1-D vectors: the elementwise product summed;
NumPy raises `ValueError` when the shapes differ. -/
def np_dot (a b : List ℚ) : Except String ℚ :=
  if a.length = b.length then Except.ok (List.zipWith (· * ·) a b).sum
  else Except.error "ValueError: shapes not aligned"

/-- Integer square root by exhaustive search (kernel-computable model of the
mathematical square root used by `np.linalg.norm`). -/
def natSqrt (n : ℕ) : ℕ :=
  ((List.range (n + 1)).filter (fun k => k * k ≤ n)).getLastD 0

/-- Rational square root: exact whenever numerator and denominator are perfect
squares, which holds in every concrete instance evaluated in this file.  The
concrete claims below depend only on `ratSqrt 0 = 0` and `ratSqrt 1 = 1`; the
universally quantified claims do not depend on the value at all. -/
def ratSqrt (q : ℚ) : ℚ :=
  (natSqrt q.num.toNat : ℚ) / (natSqrt q.den : ℚ)

/-- Embedding of `np.linalg.norm`: the square root of the sum of squares. -/
def np_norm (v : List ℚ) : ℚ :=
  ratSqrt (v.map (fun x => x * x)).sum

/-- Embedding of `cosine_similarity` (quote_clusterer.py lines 30-36): parse
both inputs, return 0.0 when either fails to parse, otherwise compute
`dot(a,b) / (|a| * |b|)`.  The dot product raises on mismatched
dimensionality and the division of zero by zero yields NaN, exactly as the
unguarded NumPy expression does. -/
def cosine_similarity (a b : EmbInput) : Except String PyFloat :=
  match parse_embedding a, parse_embedding b with
  | some va, some vb =>
    match np_dot va vb with
    | Except.ok d => Except.ok (pyDiv d (np_norm va * np_norm vb))
    | Except.error e => Except.error e
  | _, _ => Except.ok (PyFloat.val 0)

/-- A quote row as consumed by the clusterer: id, parent article id, raw
embedding field, and creation time in days. -/
structure PyQuote where
  id : String
  article_id : String
  embedding : EmbInput
  created_at : Int
  deriving DecidableEq, Repr

instance : Inhabited PyQuote := ⟨⟨"", "", EmbInput.null, 0⟩⟩

/-- A cluster dict as built by `find_quote_clusters` (lines 127-147). -/
structure Cluster where
  quotes : List PyQuote
  article_ids : Finset String
  has_old_anchor : Bool
  anchor_quote : PyQuote
  recent_quotes : List PyQuote
  total_quotes : ℕ
  total_articles : ℕ
  deriving DecidableEq

instance : Inhabited Cluster :=
  ⟨⟨[], ∅, false, default, [], 0, 0⟩⟩

/-- The inner absorption scan of `find_quote_clusters` (lines 89-96): walk all
quotes in sorted order, skip the ones already clustered, and absorb any whose
similarity to the seed is at least the threshold, recording its id as
clustered.  An exception from `cosine_similarity` propagates. -/
def absorbScan (threshold : ℚ) (anchorEmb : EmbInput) :
    List PyQuote → List String → List PyQuote →
    Except String (List String × List PyQuote)
  | [], clustered, acc => Except.ok (clustered, acc)
  | c :: rest, clustered, acc =>
    if c.id ∈ clustered then absorbScan threshold anchorEmb rest clustered acc
    else
      match cosine_similarity anchorEmb c.embedding with
      | Except.error e => Except.error e
      | Except.ok sim =>
        if pfGE sim threshold then
          absorbScan threshold anchorEmb rest (c.id :: clustered) (acc ++ [c])
        else absorbScan threshold anchorEmb rest clustered acc

/-- The body of the outer loop of `find_quote_clusters` for one seed quote
(lines 84-147): absorb similar quotes, then qualify the candidate cluster
(size and article-diversity gates) and split it temporally.  Returns the
updated clustered set, the candidate member list, and the cluster dict if one
was emitted.  Note that the source computes a `thirty_days_ago` cutoff (line
104) that is never used: the `else` branch of the age test puts every quote
not older than 60 days into `recent_quotes`. -/
def clusterStep (now : Int) (threshold : ℚ) (min_quotes min_articles : ℕ)
    (require_old_anchor : Bool) (sorted_quotes : List PyQuote)
    (anchor : PyQuote) (clustered : List String) :
    Except String (List String × List PyQuote × Option Cluster) :=
  match absorbScan threshold anchor.embedding sorted_quotes
      (anchor.id :: clustered) [anchor] with
  | Except.error e => Except.error e
  | Except.ok (clustered', cluster_quotes) =>
    let article_ids := (cluster_quotes.map (fun q => q.article_id)).toFinset
    if min_quotes ≤ cluster_quotes.length ∧ min_articles ≤ article_ids.card then
      let two_months_ago := now - 60
      let old_quotes :=
        cluster_quotes.filter (fun q => decide (q.created_at < two_months_ago))
      let recent_quotes :=
        cluster_quotes.filter (fun q => !decide (q.created_at < two_months_ago))
      if require_old_anchor then
        match old_quotes with
        | o :: _ =>
          if 2 ≤ recent_quotes.length then
            Except.ok (clustered', cluster_quotes, some
              { quotes := cluster_quotes
                article_ids := article_ids
                has_old_anchor := true
                anchor_quote := o
                recent_quotes := recent_quotes.take 3
                total_quotes := cluster_quotes.length
                total_articles := article_ids.card })
          else Except.ok (clustered', cluster_quotes, Option.none)
        | [] => Except.ok (clustered', cluster_quotes, Option.none)
      else
        Except.ok (clustered', cluster_quotes, some
          { quotes := cluster_quotes
            article_ids := article_ids
            has_old_anchor := !old_quotes.isEmpty
            anchor_quote := cluster_quotes.headI
            recent_quotes := (cluster_quotes.drop 1).take 3
            total_quotes := cluster_quotes.length
            total_articles := article_ids.card })
    else Except.ok (clustered', cluster_quotes, Option.none)

/-- The outer loop of `find_quote_clusters` (lines 80-147): iterate over the
sorted quotes, skipping the already-clustered ones, and collect the clusters
emitted by each seed. -/
def clusterLoop (now : Int) (threshold : ℚ) (min_quotes min_articles : ℕ)
    (require_old_anchor : Bool) (sorted_quotes : List PyQuote) :
    List PyQuote → List String → Except String (List String × List Cluster)
  | [], clustered => Except.ok (clustered, [])
  | a :: rest, clustered =>
    if a.id ∈ clustered then
      clusterLoop now threshold min_quotes min_articles require_old_anchor
        sorted_quotes rest clustered
    else
      match clusterStep now threshold min_quotes min_articles
          require_old_anchor sorted_quotes a clustered with
      | Except.error e => Except.error e
      | Except.ok (clustered', _, oc) =>
        match clusterLoop now threshold min_quotes min_articles
            require_old_anchor sorted_quotes rest clustered' with
        | Except.error e => Except.error e
        | Except.ok (clusteredF, cs) =>
          Except.ok (clusteredF,
            match oc with
            | some c => c :: cs
            | Option.none => cs)

/-- Ascending creation-time order used on line 78 (`sorted(..., key=lambda q:
q['created_at'])`; Python's sort is stable, as is insertion sort). -/
def createdLE (a b : PyQuote) : Prop := a.created_at ≤ b.created_at

instance : DecidableRel createdLE :=
  fun a b => inferInstanceAs (Decidable (a.created_at ≤ b.created_at))

/-- Descending member-count order used on line 150 (`clusters.sort(key=...,
reverse=True)`, a stable descending sort). -/
def totalQuotesGE (c d : Cluster) : Prop := d.total_quotes ≤ c.total_quotes

instance : DecidableRel totalQuotesGE :=
  fun c d => inferInstanceAs (Decidable (d.total_quotes ≤ c.total_quotes))

/-- Embedding of `find_quote_clusters` (quote_clusterer.py lines 39-152).
`now` stands for `datetime.utcnow()`; the Python defaults are
`similarity_threshold=0.60`, `min_quotes=5`, `min_articles=3`,
`require_old_anchor=True`, passed explicitly by the callers below. -/
def find_quote_clusters (now : Int) (quotes : List PyQuote)
    (similarity_threshold : ℚ) (min_quotes min_articles : ℕ)
    (require_old_anchor : Bool) : Except String (List Cluster) :=
  if quotes = [] ∨ quotes.length < min_quotes then Except.ok []
  else
    let quotes_with_embeddings := quotes.filter (fun q => embTruthy q.embedding)
    if quotes_with_embeddings.length < min_quotes then Except.ok []
    else
      let sorted_quotes := List.insertionSort createdLE quotes_with_embeddings
      match clusterLoop now similarity_threshold min_quotes min_articles
          require_old_anchor sorted_quotes sorted_quotes [] with
      | Except.error e => Except.error e
      | Except.ok (_, clusters) =>
        Except.ok (List.insertionSort totalQuotesGE clusters)

/-- Embedding of `get_cluster_for_digest` (quote_clusterer.py lines 155-193).
The `random.choices` draw over the weights `[3, 2, 1]` is modelled by an
arbitrary index `choice` into the (nonempty) drawn list: the theorems below
hold for every draw.  `excluded_anchor_ids = None` and the empty set are both
falsy in `excluded_anchor_ids or set()`, so the parameter is an `Option`
defaulted to the empty set. -/
def get_cluster_for_digest (now : Int) (quotes : List PyQuote)
    (relaxed : Bool) (excluded_anchor_ids : Option (Finset String))
    (choice : ℕ) : Except String (Option Cluster) :=
  match find_quote_clusters now quotes (3/5) 5 3 (!relaxed) with
  | Except.error e => Except.error e
  | Except.ok clusters =>
    match clusters with
    | [] => Except.ok Option.none
    | _ :: _ =>
      let excluded := excluded_anchor_ids.getD ∅
      let available_clusters :=
        clusters.filter (fun c => decide (c.anchor_quote.id ∉ excluded))
      let available_clusters :=
        if available_clusters.isEmpty then clusters else available_clusters
      let top_clusters := available_clusters.take 3
      Except.ok (top_clusters[choice % top_clusters.length]?)

/-- A row of the external `search_quotes` RPC result consumed by
`find_quotes_for_category` (category_matcher.py line 55): a quote id with its
similarity score as computed by the store.  The store is an external
collaborator; its output is an input of the embedded function. -/
structure QMatch where
  id : String
  similarity : ℚ
  deriving DecidableEq, Repr

/-- Model of the dict comprehension `{q['id']: q for q in all_quotes}`
followed by `.get(quote_id)` (category_matcher.py lines 66 and 77): a later
quote with the same id overwrites an earlier one. -/
def quotes_map_get (all_quotes : List PyQuote) (i : String) : Option PyQuote :=
  all_quotes.reverse.find? (fun q => q.id == i)

/-- Python test `excluded_quote_ids and quote_id in excluded_quote_ids`
(line 74): a `None` (or empty) exclusion set excludes nothing. -/
def inExcluded (e : Option (Finset String)) (i : String) : Bool :=
  match e with
  | Option.none => false
  | some s => decide (i ∈ s)

/-- Descending-similarity order used by `enriched.sort(key=lambda x:
x.get('similarity', 0), reverse=True)` (line 85); every enriched entry
carries a similarity, so the `0` default is never taken. -/
def simDescLE (x y : PyQuote × ℚ) : Prop := y.2 ≤ x.2

instance : DecidableRel simDescLE :=
  fun x y => inferInstanceAs (Decidable (y.2 ≤ x.2))

instance : IsTotal (PyQuote × ℚ) simDescLE := ⟨fun x y => le_total y.2 x.2⟩

instance : IsTrans (PyQuote × ℚ) simDescLE :=
  ⟨fun _ _ _ h h' => le_trans h' h⟩

/-- Embedding of `find_quotes_for_category` (category_matcher.py lines
32-87).  `matching_quotes` is the external store's similarity search result
(fetched with the function's threshold and `limit * 2`), `all_quotes` the
full quote table used for enrichment.  Matches that are excluded or have no
full row are dropped; the rest are sorted by similarity descending (stable)
and truncated to `limit`.  The Python default is `limit=50`. -/
def find_quotes_for_category (matching_quotes : List QMatch)
    (all_quotes : List PyQuote) (limit : ℕ)
    (excluded_quote_ids : Option (Finset String)) : List (PyQuote × ℚ) :=
  if matching_quotes = [] then []
  else
    let enriched := matching_quotes.filterMap (fun m =>
      if inExcluded excluded_quote_ids m.id then Option.none
      else
        match quotes_map_get all_quotes m.id with
        | some q => some (q, m.similarity)
        | Option.none => Option.none)
    let enriched := List.insertionSort simDescLE enriched
    enriched.take limit

/-- The formal parameters of `generate_curator_digest` (digest_generator.py
line 15): `quotes_with_articles` and `relaxed` only. -/
def generate_curator_digest_params : List String :=
  ["quotes_with_articles", "relaxed"]

/-- The keyword names used at the auto-discovery call sites (main.py line
118, also lines 468 and 506, and send_digest.py line 40):
`generate_curator_digest(quotes, excluded_anchor_ids=excluded_anchors)`. -/
def curator_digest_call_kwargs : List String :=
  ["excluded_anchor_ids"]

/-- The cluster-selection call inside `generate_curator_digest`
(digest_generator.py line 27): `get_cluster_for_digest(quotes_with_articles,
relaxed=relaxed)` — the selector's `excluded_anchor_ids` parameter is left at
its default `None`. -/
def generate_curator_digest_selection (now : Int) (quotes : List PyQuote)
    (relaxed : Bool) (choice : ℕ) : Except String (Option Cluster) :=
  get_cluster_for_digest now quotes relaxed Option.none choice

/-- The auto-discovery branch of the digest cycle (main.py lines 116-118):
`excluded_anchors = get_recent_digest_anchor_ids(days=7)` followed by
`generate_curator_digest(quotes, excluded_anchor_ids=excluded_anchors)`.
Python raises `TypeError` when a keyword argument does not match a formal
parameter of the callee, before the body runs; `generate_curator_digest`
defaults `relaxed` to `True`. -/
def send_scheduled_digest_autodiscovery (now : Int) (quotes : List PyQuote)
    (excluded_anchors : Finset String) (choice : ℕ) :
    Except String (Option Cluster) :=
  if curator_digest_call_kwargs.all
      (fun k => generate_curator_digest_params.contains k) then
    generate_curator_digest_selection now quotes true choice
  else
    Except.error
      "TypeError: generate_curator_digest() got an unexpected keyword argument excluded_anchor_ids"

/-- A digest-history row as written by `save_digest_history` (main.py lines
124-129, send_digest.py lines 51-56). -/
structure DigestRecord where
  theme : Option String
  anchor_quote_id : Option String
  anchor_article_id : Option String
  cluster_quote_ids : List String
  deriving DecidableEq, Repr

/-- The generated digest payload handed to delivery: subject and body plus
the metadata later recorded to history. -/
structure Digest where
  subject : String
  html_body : String
  theme : Option String
  anchor_quote_id : Option String
  anchor_article_id : Option String
  cluster_quote_ids : List String
  deriving DecidableEq, Repr

/-- The externally visible state touched by the tail of a digest cycle: the
append-only digest history table and the outbox of sent emails. -/
structure DigestWorld where
  history : List DigestRecord
  sent_emails : List (String × String)
  deriving DecidableEq, Repr

/-- The delivery-and-record tail shared by `send_scheduled_digest` (main.py
lines 120-129) and `send_digest.main` (send_digest.py lines 42-64): when no
digest was generated nothing happens; otherwise the email send is attempted
first and `save_digest_history` runs only in its success continuation — an
exception from the send (modelled by `send_ok = false`) is caught and the
invocation ends with no history written. -/
def deliver_and_record (w : DigestWorld) (digest : Option Digest)
    (send_ok : Bool) : DigestWorld :=
  match digest with
  | Option.none => w
  | some d =>
    if send_ok then
      { w with
        sent_emails := w.sent_emails ++ [(d.subject, d.html_body)]
        history := w.history ++
          [⟨d.theme, d.anchor_quote_id, d.anchor_article_id,
            d.cluster_quote_ids⟩] }
    else w

/-! ### Concrete sample data used to instantiate the theorems -/

/-- Sample quote: 70 days old at `now = 100` (created day 30). -/
def sq1 : PyQuote := ⟨"q1", "a1", EmbInput.list [1], 30⟩

/-- Sample quote: 45 days old at `now = 100` — inside the 30-to-60-day
band. -/
def sq2 : PyQuote := ⟨"q2", "a2", EmbInput.list [1], 55⟩

/-- Sample quote: 44 days old at `now = 100`. -/
def sq3 : PyQuote := ⟨"q3", "a3", EmbInput.list [1], 56⟩

/-- Sample quote: 43 days old at `now = 100`. -/
def sq4 : PyQuote := ⟨"q4", "a4", EmbInput.list [1], 57⟩

/-- Sample quote: 42 days old at `now = 100`, same article as sq4. -/
def sq5 : PyQuote := ⟨"q5", "a4", EmbInput.list [1], 58⟩

/-- Five identical-embedding quotes from four articles, spanning one 70-day
old anchor and four quotes aged 42-45 days. -/
def sampleQuotes : List PyQuote := [sq1, sq2, sq3, sq4, sq5]

/-- The single cluster `find_quote_clusters` produces from `sampleQuotes`
at `now = 100` with the default parameters. -/
def sampleCluster : Cluster :=
  { quotes := [sq1, sq2, sq3, sq4, sq5]
    article_ids :=
      (List.map (fun q => q.article_id) [sq1, sq2, sq3, sq4, sq5]).toFinset
    has_old_anchor := true
    anchor_quote := sq1
    recent_quotes := [sq2, sq3, sq4]
    total_quotes := 5
    total_articles :=
      (List.map (fun q => q.article_id) [sq1, sq2, sq3, sq4, sq5]).toFinset.card }

/-- A quote whose embedding is [3, 4] (norm 5), for the exact-threshold
instance. -/
def sqa : PyQuote := ⟨"qa", "aa", EmbInput.list [3, 4], 0⟩

/-- A quote whose embedding is [5, 0] (norm 5): its cosine similarity with
sqa is 15 / 25 = 3/5, exactly the default threshold. -/
def sqb : PyQuote := ⟨"qb", "ab", EmbInput.list [5, 0], 0⟩

/-- An empty world state for the digest-cycle theorems. -/
def w0 : DigestWorld := ⟨[], []⟩

/-- A concrete digest payload. -/
def d0 : Digest :=
  ⟨"subject", "body", some "theme", some "qa", some "aa", ["qa"]⟩

/-! ### Invariants of the absorption scan -/

theorem absorbScan_spec (threshold : ℚ) (aEmb : EmbInput) :
    ∀ (l : List PyQuote) (cl : List String) (acc : List PyQuote)
      (cl' : List String) (acc' : List PyQuote),
      absorbScan threshold aEmb l cl acc = Except.ok (cl', acc') →
      (∀ s ∈ cl, s ∈ cl') ∧
      ∃ tl, acc' = acc ++ tl ∧ ∀ q ∈ tl, q.id ∈ cl' ∧ q.id ∉ cl := by
  intro l
  induction l with
  | nil =>
    intro cl acc cl' acc' h
    simp only [absorbScan, Except.ok.injEq, Prod.mk.injEq] at h
    obtain ⟨rfl, rfl⟩ := h
    exact ⟨fun s hs => hs, [], by simp⟩
  | cons c rest ih =>
    intro cl acc cl' acc' h
    simp only [absorbScan] at h
    by_cases hc : c.id ∈ cl
    · rw [if_pos hc] at h
      exact ih cl acc cl' acc' h
    · rw [if_neg hc] at h
      cases hcos : cosine_similarity aEmb c.embedding with
      | error e => rw [hcos] at h; cases h
      | ok sim =>
        rw [hcos] at h
        dsimp only at h
        by_cases hsim : pfGE sim threshold = true
        · rw [if_pos hsim] at h
          obtain ⟨hsub, tl', heq, htl'⟩ := ih (c.id :: cl) (acc ++ [c]) cl' acc' h
          refine ⟨fun s hs => hsub s (List.mem_cons_of_mem _ hs), c :: tl', ?_, ?_⟩
          · rw [heq]; simp
          · intro q hq
            rcases List.mem_cons.mp hq with rfl | hq'
            · exact ⟨hsub q.id (List.mem_cons_self _ _), hc⟩
            · exact ⟨(htl' q hq').1,
                fun hin => (htl' q hq').2 (List.mem_cons_of_mem _ hin)⟩
        · rw [if_neg hsim] at h
          exact ih cl acc cl' acc' h

theorem absorbScan_acc_mem (threshold : ℚ) (aEmb : EmbInput)
    (l : List PyQuote) (cl : List String) (acc : List PyQuote)
    (cl' : List String) (acc' : List PyQuote)
    (h : absorbScan threshold aEmb l cl acc = Except.ok (cl', acc'))
    (hacc : ∀ q ∈ acc, q.id ∈ cl) :
    ∀ q ∈ acc', q.id ∈ cl' := by
  obtain ⟨hsub, tl, rfl, htl⟩ := absorbScan_spec threshold aEmb l cl acc cl' acc' h
  intro q hq
  rcases List.mem_append.mp hq with hq' | hq'
  · exact hsub q.id (hacc q hq')
  · exact (htl q hq').1

/-! ### Invariants of one step of the clustering loop -/

theorem clusterStep_shape (now : Int) (t : ℚ) (mq ma : ℕ) (ro : Bool)
    (sorted_quotes : List PyQuote) (a : PyQuote) (cl cl' : List String)
    (cq : List PyQuote) (oc : Option Cluster)
    (h : clusterStep now t mq ma ro sorted_quotes a cl =
      Except.ok (cl', cq, oc)) :
    absorbScan t a.embedding sorted_quotes (a.id :: cl) [a] =
      Except.ok (cl', cq) := by
  unfold clusterStep at h
  cases habs : absorbScan t a.embedding sorted_quotes (a.id :: cl) [a] with
  | error e => rw [habs] at h; cases h
  | ok p =>
    obtain ⟨cl₁, cq₁⟩ := p
    rw [habs] at h
    dsimp only at h
    split at h <;> (try split at h) <;> (try split at h) <;>
        (try split at h) <;>
      (simp only [Except.ok.injEq, Prod.mk.injEq] at h
       obtain ⟨h1, h2, _⟩ := h
       rw [h1, h2])

theorem clusterStep_members (now : Int) (t : ℚ) (mq ma : ℕ) (ro : Bool)
    (sorted_quotes : List PyQuote) (a : PyQuote) (cl cl' : List String)
    (cq : List PyQuote) (oc : Option Cluster)
    (h : clusterStep now t mq ma ro sorted_quotes a cl =
      Except.ok (cl', cq, oc)) :
    (∀ s ∈ cl, s ∈ cl') ∧ (∃ tl, cq = a :: tl) ∧
    (∀ q ∈ cq, q.id ∈ cl') ∧ (∀ q ∈ cq, q.id = a.id ∨ q.id ∉ cl) := by
  have habs := clusterStep_shape now t mq ma ro sorted_quotes a cl cl' cq oc h
  obtain ⟨hsub, tl, heq, htl⟩ :=
    absorbScan_spec t a.embedding sorted_quotes (a.id :: cl) [a] cl' cq habs
  have heq' : cq = a :: tl := by simpa using heq
  refine ⟨fun s hs => hsub s (List.mem_cons_of_mem _ hs), ⟨tl, heq'⟩, ?_, ?_⟩
  · intro q hq
    rw [heq'] at hq
    rcases List.mem_cons.mp hq with rfl | hq'
    · exact hsub q.id (List.mem_cons_self _ _)
    · exact (htl q hq').1
  · intro q hq
    rw [heq'] at hq
    rcases List.mem_cons.mp hq with rfl | hq'
    · exact Or.inl rfl
    · exact Or.inr fun hin => (htl q hq').2 (List.mem_cons_of_mem _ hin)

theorem clusterStep_some_spec (now : Int) (t : ℚ) (mq ma : ℕ) (ro : Bool)
    (sorted_quotes : List PyQuote) (a : PyQuote) (cl cl' : List String)
    (cq : List PyQuote) (c : Cluster)
    (h : clusterStep now t mq ma ro sorted_quotes a cl =
      Except.ok (cl', cq, some c)) :
    c.quotes = cq ∧
    c.article_ids = (cq.map (fun q => q.article_id)).toFinset ∧
    mq ≤ cq.length ∧ ma ≤ c.article_ids.card ∧
    c.total_quotes = cq.length ∧
    (ro = true →
      c.has_old_anchor = true ∧ c.anchor_quote ∈ cq ∧
      c.anchor_quote.created_at < now - 60 ∧
      2 ≤ c.recent_quotes.length ∧ c.recent_quotes.length ≤ 3 ∧
      ∀ q ∈ c.recent_quotes, q ∈ cq ∧ ¬ q.created_at < now - 60) ∧
    (ro = false →
      c.anchor_quote = cq.headI ∧
      c.recent_quotes = (cq.drop 1).take 3) := by
  unfold clusterStep at h
  cases habs : absorbScan t a.embedding sorted_quotes (a.id :: cl) [a] with
  | error e => rw [habs] at h; cases h
  | ok p =>
    obtain ⟨cl₁, cq₁⟩ := p
    rw [habs] at h
    dsimp only at h
    by_cases hguard :
        mq ≤ cq₁.length ∧ ma ≤ (List.map (fun q => q.article_id) cq₁).toFinset.card
    · rw [if_pos hguard] at h
      cases hro : ro with
      | true =>
        rw [hro] at h
        simp only [eq_self_iff_true, if_true] at h
        cases hold : cq₁.filter (fun q => decide (q.created_at < now - 60)) with
        | nil => rw [hold] at h; simp at h
        | cons o os =>
          rw [hold] at h
          dsimp only at h
          by_cases h2 :
              2 ≤ (cq₁.filter (fun q => !decide (q.created_at < now - 60))).length
          · rw [if_pos h2] at h
            simp only [Except.ok.injEq, Prod.mk.injEq, Option.some.injEq] at h
            obtain ⟨_, hcq, hc⟩ := h
            subst hcq
            subst hc
            have homem : o ∈ cq₁.filter (fun q => decide (q.created_at < now - 60)) := by
              rw [hold]; exact List.mem_cons_self _ _
            have ho := List.mem_filter.mp homem
            refine ⟨rfl, rfl, hguard.1, hguard.2, rfl, ?_, by simp⟩
            intro _
            refine ⟨rfl, ho.1, of_decide_eq_true ho.2, ?_, ?_, ?_⟩
            · rw [List.length_take]
              exact Nat.le_min.mpr ⟨by norm_num, h2⟩
            · rw [List.length_take]
              exact Nat.min_le_left 3 _
            · intro q hq
              have hq' : q ∈ cq₁.filter (fun q => !decide (q.created_at < now - 60)) :=
                List.take_subset 3 _ hq
              have := List.mem_filter.mp hq'
              exact ⟨this.1, of_decide_eq_false (by simpa using this.2)⟩
          · rw [if_neg h2] at h; simp at h
      | false =>
        rw [hro] at h
        simp only [Bool.false_eq_true, if_false] at h
        simp only [Except.ok.injEq, Prod.mk.injEq, Option.some.injEq] at h
        obtain ⟨_, hcq, hc⟩ := h
        subst hcq
        subst hc
        exact ⟨rfl, rfl, hguard.1, hguard.2, rfl, by simp, fun _ => ⟨rfl, rfl⟩⟩
    · rw [if_neg hguard] at h; simp at h

/-! ### Invariants of the outer clustering loop -/

/-- Two clusters have disjoint member sets (no shared quote id). -/
def clusterDisj (c d : Cluster) : Prop :=
  ∀ q ∈ c.quotes, ∀ r ∈ d.quotes, q.id ≠ r.id

theorem clusterDisj_symm : Symmetric clusterDisj := by
  intro c d h q hq r hr
  exact (h r hr q hq).symm

theorem clusterLoop_forall (now : Int) (t : ℚ) (mq ma : ℕ) (ro : Bool)
    (sorted_quotes : List PyQuote) {P : Cluster → Prop}
    (hP : ∀ a cl cl' cq c,
      clusterStep now t mq ma ro sorted_quotes a cl =
        Except.ok (cl', cq, some c) → P c) :
    ∀ (l : List PyQuote) (cl clF : List String) (cs : List Cluster),
      clusterLoop now t mq ma ro sorted_quotes l cl = Except.ok (clF, cs) →
      ∀ c ∈ cs, P c := by
  intro l
  induction l with
  | nil =>
    intro cl clF cs h
    simp only [clusterLoop, Except.ok.injEq, Prod.mk.injEq] at h
    rw [← h.2]
    intro c hc
    cases hc
  | cons a rest ih =>
    intro cl clF cs h
    simp only [clusterLoop] at h
    by_cases hc : a.id ∈ cl
    · rw [if_pos hc] at h
      exact ih cl clF cs h
    · rw [if_neg hc] at h
      cases hstep : clusterStep now t mq ma ro sorted_quotes a cl with
      | error e => rw [hstep] at h; cases h
      | ok p =>
        obtain ⟨cl₁, cq₁, oc⟩ := p
        rw [hstep] at h
        dsimp only at h
        cases hloop : clusterLoop now t mq ma ro sorted_quotes rest cl₁ with
        | error e => rw [hloop] at h; cases h
        | ok pr =>
          obtain ⟨clF', cs'⟩ := pr
          rw [hloop] at h
          dsimp only at h
          simp only [Except.ok.injEq, Prod.mk.injEq] at h
          obtain ⟨_, h2⟩ := h
          intro c hcmem
          rw [← h2] at hcmem
          cases oc with
          | some c0 =>
            rcases List.mem_cons.mp hcmem with rfl | hmem'
            · exact hP a cl cl₁ cq₁ c hstep
            · exact ih cl₁ clF' cs' hloop c hmem'
          | none => exact ih cl₁ clF' cs' hloop c hcmem

theorem clusterLoop_inv (now : Int) (t : ℚ) (mq ma : ℕ) (ro : Bool)
    (sorted_quotes : List PyQuote) :
    ∀ (l : List PyQuote) (cl clF : List String) (cs : List Cluster),
      clusterLoop now t mq ma ro sorted_quotes l cl = Except.ok (clF, cs) →
      (∀ s ∈ cl, s ∈ clF) ∧
      (∀ c ∈ cs, ∀ q ∈ c.quotes, q.id ∈ clF ∧ q.id ∉ cl) ∧
      cs.Pairwise clusterDisj := by
  intro l
  induction l with
  | nil =>
    intro cl clF cs h
    simp only [clusterLoop, Except.ok.injEq, Prod.mk.injEq] at h
    obtain ⟨h1, h2⟩ := h
    subst h1
    rw [← h2]
    exact ⟨fun s hs => hs, fun c hc => absurd hc (List.not_mem_nil c),
      List.Pairwise.nil⟩
  | cons a rest ih =>
    intro cl clF cs h
    simp only [clusterLoop] at h
    by_cases hc : a.id ∈ cl
    · rw [if_pos hc] at h
      exact ih cl clF cs h
    · rw [if_neg hc] at h
      cases hstep : clusterStep now t mq ma ro sorted_quotes a cl with
      | error e => rw [hstep] at h; cases h
      | ok p =>
        obtain ⟨cl₁, cq₁, oc⟩ := p
        rw [hstep] at h
        dsimp only at h
        cases hloop : clusterLoop now t mq ma ro sorted_quotes rest cl₁ with
        | error e => rw [hloop] at h; cases h
        | ok pr =>
          obtain ⟨clF', cs'⟩ := pr
          rw [hloop] at h
          dsimp only at h
          simp only [Except.ok.injEq, Prod.mk.injEq] at h
          obtain ⟨h1, h2⟩ := h
          subst h1
          obtain ⟨hsub₀, _, hids, hfresh⟩ :=
            clusterStep_members now t mq ma ro sorted_quotes a cl cl₁ cq₁ oc hstep
          obtain ⟨hsub₁, hmem₁, hpw₁⟩ := ih cl₁ clF' cs' hloop
          have hfresh' : ∀ q ∈ cq₁, q.id ∉ cl := by
            intro q hq hqin
            rcases hfresh q hq with heq | hnot
            · exact hc (heq ▸ hqin)
            · exact hnot hqin
          have hmain :
              (∀ s ∈ cl, s ∈ clF') ∧
              (∀ c ∈ (match oc with | some c => c :: cs' | Option.none => cs'),
                ∀ q ∈ c.quotes, q.id ∈ clF' ∧ q.id ∉ cl) ∧
              (match oc with
                | some c => c :: cs'
                | Option.none => cs').Pairwise clusterDisj := by
            refine ⟨fun s hs => hsub₁ s (hsub₀ s hs), ?_, ?_⟩
            · cases oc with
              | some c0 =>
                intro c hcm q hq
                rcases List.mem_cons.mp hcm with rfl | hcm'
                · have hq' : q ∈ cq₁ := by
                    have := (clusterStep_some_spec now t mq ma ro sorted_quotes
                      a cl cl₁ cq₁ c hstep).1
                    rw [← this]
                    exact hq
                  exact ⟨hsub₁ q.id (hids q hq'), hfresh' q hq'⟩
                · obtain ⟨hin, hnin⟩ := hmem₁ c hcm' q hq
                  exact ⟨hin, fun hqcl => hnin (hsub₀ q.id hqcl)⟩
              | none => exact fun c hcm q hq =>
                  ⟨(hmem₁ c hcm q hq).1,
                   fun hqcl => (hmem₁ c hcm q hq).2 (hsub₀ q.id hqcl)⟩
            · cases oc with
              | some c0 =>
                refine List.Pairwise.cons ?_ hpw₁
                intro d hd q hq r hr
                have hq' : q ∈ cq₁ := by
                  have := (clusterStep_some_spec now t mq ma ro sorted_quotes
                    a cl cl₁ cq₁ c0 hstep).1
                  rw [← this]
                  exact hq
                intro hqr
                exact (hmem₁ d hd r hr).2 (hqr ▸ hids q hq')
              | none => exact hpw₁
          rw [← h2]
          exact hmain

/-! ### Facts about find_quote_clusters as a whole -/

theorem find_quote_clusters_cases (now : Int) (quotes : List PyQuote)
    (t : ℚ) (mq ma : ℕ) (ro : Bool) (cs : List Cluster)
    (h : find_quote_clusters now quotes t mq ma ro = Except.ok cs) :
    cs = [] ∨
    ∃ (clF : List String) (cs₀ : List Cluster),
      clusterLoop now t mq ma ro
          (List.insertionSort createdLE
            (quotes.filter (fun q => embTruthy q.embedding)))
          (List.insertionSort createdLE
            (quotes.filter (fun q => embTruthy q.embedding)))
          [] = Except.ok (clF, cs₀) ∧
      cs = List.insertionSort totalQuotesGE cs₀ := by
  unfold find_quote_clusters at h
  by_cases h0 : quotes = [] ∨ quotes.length < mq
  · rw [if_pos h0] at h
    simp only [Except.ok.injEq] at h
    exact Or.inl h.symm
  · rw [if_neg h0] at h
    dsimp only at h
    by_cases h1 : (quotes.filter (fun q => embTruthy q.embedding)).length < mq
    · rw [if_pos h1] at h
      simp only [Except.ok.injEq] at h
      exact Or.inl h.symm
    · rw [if_neg h1] at h
      cases hloop : clusterLoop now t mq ma ro
          (List.insertionSort createdLE
            (quotes.filter (fun q => embTruthy q.embedding)))
          (List.insertionSort createdLE
            (quotes.filter (fun q => embTruthy q.embedding)))
          [] with
      | error e => rw [hloop] at h; cases h
      | ok pr =>
        obtain ⟨clF, cs₀⟩ := pr
        rw [hloop] at h
        dsimp only at h
        simp only [Except.ok.injEq] at h
        exact Or.inr ⟨clF, cs₀, rfl, h.symm⟩

theorem find_quote_clusters_forall (now : Int) (quotes : List PyQuote)
    (t : ℚ) (mq ma : ℕ) (ro : Bool) (cs : List Cluster)
    {P : Cluster → Prop}
    (hP : ∀ a cl cl' cq c,
      clusterStep now t mq ma ro
          (List.insertionSort createdLE
            (quotes.filter (fun q => embTruthy q.embedding))) a cl =
        Except.ok (cl', cq, some c) → P c)
    (h : find_quote_clusters now quotes t mq ma ro = Except.ok cs) :
    ∀ c ∈ cs, P c := by
  rcases find_quote_clusters_cases now quotes t mq ma ro cs h with rfl | hcase
  · intro c hc; cases hc
  · obtain ⟨clF, cs₀, hloop, rfl⟩ := hcase
    intro c hc
    have hc₀ : c ∈ cs₀ := (List.mem_insertionSort totalQuotesGE).mp hc
    exact clusterLoop_forall now t mq ma ro _ hP _ [] clF cs₀ hloop c hc₀

theorem find_quote_clusters_pairwise (now : Int) (quotes : List PyQuote)
    (t : ℚ) (mq ma : ℕ) (ro : Bool) (cs : List Cluster)
    (h : find_quote_clusters now quotes t mq ma ro = Except.ok cs) :
    cs.Pairwise clusterDisj := by
  rcases find_quote_clusters_cases now quotes t mq ma ro cs h with rfl | hcase
  · exact List.Pairwise.nil
  · obtain ⟨clF, cs₀, hloop, rfl⟩ := hcase
    have hpw := (clusterLoop_inv now t mq ma ro _ _ [] clF cs₀ hloop).2.2
    exact ((List.perm_insertionSort totalQuotesGE cs₀).pairwise_iff
      fun hd => clusterDisj_symm hd).mpr hpw

/-! ### Concrete evaluations of the embedded code -/

theorem natSqrt_one : natSqrt 1 = 1 := by decide

theorem natSqrt_25 : natSqrt 25 = 5 := by decide

theorem cos_one_one :
    cosine_similarity (EmbInput.list [1]) (EmbInput.list [1]) =
      Except.ok (PyFloat.val 1) := by
  simp [cosine_similarity, parse_embedding, np_dot, np_norm, ratSqrt, pyDiv,
    natSqrt_one]

theorem pfGE_one_sixty : pfGE (PyFloat.val 1) (3/5) = true := by
  simp only [pfGE, decide_eq_true_eq]
  norm_num

theorem sample_absorb :
    absorbScan (3/5) (EmbInput.list [1]) sampleQuotes ["q1"] [sq1] =
      Except.ok (["q5", "q4", "q3", "q2", "q1"], sampleQuotes) := by
  simp [absorbScan, sampleQuotes, sq1, sq2, sq3, sq4, sq5, cos_one_one,
    pfGE_one_sixty]

theorem sample_step :
    clusterStep 100 (3/5) 5 3 true sampleQuotes sq1 [] =
      Except.ok (["q5", "q4", "q3", "q2", "q1"], sampleQuotes,
        some sampleCluster) := by
  simp only [clusterStep, show sq1.embedding = EmbInput.list [1] from rfl,
    show sq1.id = "q1" from rfl]
  rw [sample_absorb]
  decide

theorem sample_step_relaxed :
    clusterStep 100 (3/5) 5 3 false sampleQuotes sq1 [] =
      Except.ok (["q5", "q4", "q3", "q2", "q1"], sampleQuotes,
        some sampleCluster) := by
  simp only [clusterStep, show sq1.embedding = EmbInput.list [1] from rfl,
    show sq1.id = "q1" from rfl]
  rw [sample_absorb]
  decide

theorem sample_loop_rest :
    clusterLoop 100 (3/5) 5 3 true sampleQuotes [sq2, sq3, sq4, sq5]
      ["q5", "q4", "q3", "q2", "q1"] =
      Except.ok (["q5", "q4", "q3", "q2", "q1"], []) := by decide

theorem sample_loop_rest_relaxed :
    clusterLoop 100 (3/5) 5 3 false sampleQuotes [sq2, sq3, sq4, sq5]
      ["q5", "q4", "q3", "q2", "q1"] =
      Except.ok (["q5", "q4", "q3", "q2", "q1"], []) := by decide

theorem sample_loop :
    clusterLoop 100 (3/5) 5 3 true sampleQuotes sampleQuotes [] =
      Except.ok (["q5", "q4", "q3", "q2", "q1"], [sampleCluster]) := by
  show clusterLoop 100 (3/5) 5 3 true sampleQuotes [sq1, sq2, sq3, sq4, sq5]
      [] = _
  simp [clusterLoop, sample_step, show sq1.id = "q1" from rfl,
    show sq2.id = "q2" from rfl, show sq3.id = "q3" from rfl,
    show sq4.id = "q4" from rfl, show sq5.id = "q5" from rfl]

theorem sample_loop_relaxed :
    clusterLoop 100 (3/5) 5 3 false sampleQuotes sampleQuotes [] =
      Except.ok (["q5", "q4", "q3", "q2", "q1"], [sampleCluster]) := by
  show clusterLoop 100 (3/5) 5 3 false sampleQuotes [sq1, sq2, sq3, sq4, sq5]
      [] = _
  simp [clusterLoop, sample_step_relaxed, show sq1.id = "q1" from rfl,
    show sq2.id = "q2" from rfl, show sq3.id = "q3" from rfl,
    show sq4.id = "q4" from rfl, show sq5.id = "q5" from rfl]

theorem sample_eval :
    find_quote_clusters 100 sampleQuotes (3/5) 5 3 true =
      Except.ok [sampleCluster] := by
  unfold find_quote_clusters
  rw [if_neg (by decide : ¬ (sampleQuotes = [] ∨ sampleQuotes.length < 5))]
  dsimp only
  rw [show sampleQuotes.filter (fun q => embTruthy q.embedding) = sampleQuotes
      from by decide]
  rw [if_neg (by decide : ¬ (sampleQuotes.length < 5))]
  rw [show List.insertionSort createdLE sampleQuotes = sampleQuotes from by
      decide]
  rw [sample_loop]
  dsimp only
  rw [show List.insertionSort totalQuotesGE [sampleCluster] = [sampleCluster]
      from by decide]

theorem sample_eval_relaxed :
    find_quote_clusters 100 sampleQuotes (3/5) 5 3 false =
      Except.ok [sampleCluster] := by
  unfold find_quote_clusters
  rw [if_neg (by decide : ¬ (sampleQuotes = [] ∨ sampleQuotes.length < 5))]
  dsimp only
  rw [show sampleQuotes.filter (fun q => embTruthy q.embedding) = sampleQuotes
      from by decide]
  rw [if_neg (by decide : ¬ (sampleQuotes.length < 5))]
  rw [show List.insertionSort createdLE sampleQuotes = sampleQuotes from by
      decide]
  rw [sample_loop_relaxed]
  dsimp only
  rw [show List.insertionSort totalQuotesGE [sampleCluster] = [sampleCluster]
      from by decide]

theorem sample_get :
    get_cluster_for_digest 100 sampleQuotes false Option.none 0 =
      Except.ok (some sampleCluster) := by
  unfold get_cluster_for_digest
  rw [show (!false) = true from rfl, sample_eval]
  decide

theorem sample_get_empty :
    get_cluster_for_digest 0 [] false Option.none 0 =
      Except.ok Option.none := by
  unfold get_cluster_for_digest
  rw [show (!false) = true from rfl]
  rw [show find_quote_clusters 0 [] (3/5) 5 3 true = Except.ok [] from by
      decide]

theorem sample_step_trivial :
    clusterStep 0 (3/5) 5 3 true [] sqa [] =
      Except.ok (["qa"], [sqa], Option.none) := by decide

theorem cos_three_four :
    cosine_similarity (EmbInput.list [3, 4]) (EmbInput.list [5, 0]) =
      Except.ok (PyFloat.val (3/5)) := by
  simp [cosine_similarity, parse_embedding, np_dot, np_norm, ratSqrt, pyDiv]
  norm_num [show natSqrt (Int.toNat 25) = 5 from by decide,
    show natSqrt 1 = 1 from by decide]

theorem sample_absorb_ab :
    absorbScan (3/5) (EmbInput.list [3, 4]) [sqb] [] [] =
      Except.ok (["qb"], [sqb]) := by
  simp only [absorbScan]
  rw [if_neg (by decide : ¬ sqb.id ∈ ([] : List String))]
  rw [show sqb.embedding = EmbInput.list [5, 0] from rfl, cos_three_four]
  dsimp only
  rw [if_pos (show pfGE (PyFloat.val (3/5)) (3/5) = true from by
      simp [pfGE])]
  simp [absorbScan, show sqb.id = "qb" from rfl]

/-! ### Claim theorems -/

/-- C2 (counterexample): the similarity primitive does not return 0.0 on
every input pair — two successfully parsed numeric vectors of mismatched
dimensionality make the unguarded `np.dot` raise a `ValueError`, so
`cosine_similarity([1.0, 2.0], [1.0])` raises instead of returning 0.0. -/
theorem cosine_mismatched_dims_raises :
    cosine_similarity (EmbInput.list [1, 2]) (EmbInput.list [1]) =
      Except.error "ValueError: shapes not aligned" ∧
    cosine_similarity (EmbInput.list [1, 2]) (EmbInput.list [1]) ≠
      Except.ok (PyFloat.val 0) := by
  constructor
  · simp [cosine_similarity, parse_embedding, np_dot]
  · simp [cosine_similarity, parse_embedding, np_dot]

/-- C2 (amended): for every pair of inputs where either operand is null or
fails to parse (e.g. malformed JSON), `cosine_similarity` returns 0.0 and
never raises; and for two parsed vectors of equal dimensionality it never
raises either.  (Parsed vectors of mismatched dimensionality raise, per the
counterexample.) -/
theorem cosine_unparseable_contract :
    (∀ a b : EmbInput,
      parse_embedding a = Option.none ∨ parse_embedding b = Option.none →
      cosine_similarity a b = Except.ok (PyFloat.val 0)) ∧
    (∀ (a b : EmbInput) (va vb : List ℚ),
      parse_embedding a = some va → parse_embedding b = some vb →
      va.length = vb.length →
      ∃ x, cosine_similarity a b = Except.ok x) := by
  constructor
  · intro a b hab
    unfold cosine_similarity
    cases hpa : parse_embedding a with
    | none => rfl
    | some va =>
      cases hpb : parse_embedding b with
      | none => rfl
      | some vb =>
        rcases hab with h | h
        · rw [hpa] at h; cases h
        · rw [hpb] at h; cases h
  · intro a b va vb hpa hpb hlen
    unfold cosine_similarity
    rw [hpa, hpb]
    dsimp only
    unfold np_dot
    rw [if_pos hlen]
    exact ⟨_, rfl⟩

/-- C9: for a pair of inputs that both parse to numeric vectors, one of them
the all-zeros vector, `cosine_similarity` divides by a zero product of norms
with no guard, so the returned float is the non-real NaN (0/0) rather than
0.0 or an error. -/
theorem cosine_zero_vector_nan :
    cosine_similarity (EmbInput.list [0, 0]) (EmbInput.list [1, 0]) =
      Except.ok PyFloat.nan := by
  have h1 : natSqrt 0 = 0 := by decide
  have h2 : natSqrt 1 = 1 := by decide
  simp [cosine_similarity, parse_embedding, np_dot, np_norm, ratSqrt, pyDiv,
    h1, h2]

/-- C5: every cluster returned by `find_quote_clusters` has at least
`min_quotes` member quotes and at least `min_articles` distinct article ids;
and in the absorption scan a quote whose similarity to the seed equals the
threshold exactly is absorbed (the comparison is greater-or-equal, not
strict). -/
theorem clusters_meet_minimums :
    (∀ (now : Int) (quotes : List PyQuote) (t : ℚ) (mq ma : ℕ) (ro : Bool)
        (cs : List Cluster),
      find_quote_clusters now quotes t mq ma ro = Except.ok cs →
      ∀ c ∈ cs, mq ≤ c.quotes.length ∧
        ma ≤ ((c.quotes.map (fun q => q.article_id)).toFinset).card) ∧
    (∀ (t : ℚ) (aEmb : EmbInput) (c : PyQuote) (rest : List PyQuote)
        (clustered cl' : List String) (acc acc' : List PyQuote),
      c.id ∉ clustered →
      cosine_similarity aEmb c.embedding = Except.ok (PyFloat.val t) →
      absorbScan t aEmb (c :: rest) clustered acc = Except.ok (cl', acc') →
      c ∈ acc') := by
  constructor
  · intro now quotes t mq ma ro cs h
    refine find_quote_clusters_forall now quotes t mq ma ro cs ?_ h
    intro a cl cl' cq c hstep
    have spec := clusterStep_some_spec now t mq ma ro _ a cl cl' cq c hstep
    constructor
    · rw [spec.1]; exact spec.2.2.1
    · rw [spec.1, ← spec.2.1]; exact spec.2.2.2.1
  · intro t aEmb c rest clustered cl' acc acc' hnc hcos h
    simp only [absorbScan] at h
    rw [if_neg hnc, hcos] at h
    dsimp only at h
    rw [if_pos (by simp [pfGE])] at h
    obtain ⟨_, tl, rfl, _⟩ :=
      absorbScan_spec t aEmb rest (c.id :: clustered) (acc ++ [c]) cl' acc' h
    exact List.mem_append.mpr (Or.inl (List.mem_append.mpr (Or.inr
      (List.mem_singleton.mpr rfl))))

/-- C6: strict-mode splitting (`require_old_anchor=True`) only returns
clusters whose anchor is a member quote created more than 60 days before
`now`, with between 2 and 3 entries in `recent_quotes`; relaxed mode
(`require_old_anchor=False`) returns every qualifying cluster with its first
member (in cluster order) as anchor and the next up to 3 members as
`recent_quotes`. -/
theorem split_mode_guarantees :
    (∀ (now : Int) (quotes : List PyQuote) (t : ℚ) (mq ma : ℕ)
        (cs : List Cluster),
      find_quote_clusters now quotes t mq ma true = Except.ok cs →
      ∀ c ∈ cs, c.has_old_anchor = true ∧ c.anchor_quote ∈ c.quotes ∧
        c.anchor_quote.created_at < now - 60 ∧
        2 ≤ c.recent_quotes.length ∧ c.recent_quotes.length ≤ 3) ∧
    (∀ (now : Int) (quotes : List PyQuote) (t : ℚ) (mq ma : ℕ)
        (cs : List Cluster),
      find_quote_clusters now quotes t mq ma false = Except.ok cs →
      ∀ c ∈ cs, c.quotes.head? = some c.anchor_quote ∧
        c.recent_quotes = (c.quotes.drop 1).take 3) := by
  constructor
  · intro now quotes t mq ma cs h
    refine find_quote_clusters_forall now quotes t mq ma true cs ?_ h
    intro a cl cl' cq c hstep
    have spec := clusterStep_some_spec now t mq ma true _ a cl cl' cq c hstep
    obtain ⟨hold, hmem, hcreated, h2, h3, _⟩ := spec.2.2.2.2.2.1 rfl
    exact ⟨hold, by rw [spec.1]; exact hmem, hcreated, h2, h3⟩
  · intro now quotes t mq ma cs h
    refine find_quote_clusters_forall now quotes t mq ma false cs ?_ h
    intro a cl cl' cq c hstep
    have spec := clusterStep_some_spec now t mq ma false _ a cl cl' cq c hstep
    obtain ⟨hanchor, hrecent⟩ := spec.2.2.2.2.2.2 rfl
    obtain ⟨_, ⟨tl, htl⟩, _, _⟩ :=
      clusterStep_members now t mq ma false _ a cl cl' cq (some c) hstep
    refine ⟨?_, by rw [spec.1, hrecent]⟩
    rw [spec.1, htl, hanchor, htl]
    simp [List.headI]

/-- C10: the clusters returned by `find_quote_clusters` have pairwise
disjoint member sets; a clustering step records every member of the candidate
cluster as clustered whether or not the candidate is emitted (dropped
candidates remain consumed); and no cluster emitted by the loop contains a
quote that was already clustered when the loop started, so each input quote
is assigned to at most one cluster. -/
theorem clusters_disjoint_and_consumed :
    (∀ (now : Int) (quotes : List PyQuote) (t : ℚ) (mq ma : ℕ) (ro : Bool)
        (cs : List Cluster),
      find_quote_clusters now quotes t mq ma ro = Except.ok cs →
      cs.Pairwise clusterDisj) ∧
    (∀ (now : Int) (t : ℚ) (mq ma : ℕ) (ro : Bool)
        (sorted_quotes : List PyQuote) (a : PyQuote) (cl cl' : List String)
        (cq : List PyQuote) (oc : Option Cluster),
      clusterStep now t mq ma ro sorted_quotes a cl =
        Except.ok (cl', cq, oc) →
      ∀ q ∈ cq, q.id ∈ cl') ∧
    (∀ (now : Int) (t : ℚ) (mq ma : ℕ) (ro : Bool)
        (sorted_quotes l : List PyQuote) (cl clF : List String)
        (cs : List Cluster),
      clusterLoop now t mq ma ro sorted_quotes l cl = Except.ok (clF, cs) →
      ∀ c ∈ cs, ∀ q ∈ c.quotes, q.id ∉ cl) := by
  refine ⟨fun now quotes t mq ma ro cs h =>
      find_quote_clusters_pairwise now quotes t mq ma ro cs h, ?_, ?_⟩
  · intro now t mq ma ro sorted_quotes a cl cl' cq oc h
    exact (clusterStep_members now t mq ma ro sorted_quotes a cl cl' cq oc
      h).2.2.1
  · intro now t mq ma ro sorted_quotes l cl clF cs h c hc q hq
    exact ((clusterLoop_inv now t mq ma ro sorted_quotes l cl clF cs h).2.1
      c hc q hq).2

/-- C4: whatever the random draw, `get_cluster_for_digest` never returns a
cluster whose anchor id is in `excluded_anchor_ids` unless every qualifying
cluster's anchor is excluded (the filter fallback), the returned cluster is
always one of the qualifying clusters, and `None` is returned only when no
cluster qualifies at all. -/
theorem get_cluster_for_digest_respects_exclusions :
    (∀ (now : Int) (quotes : List PyQuote) (relaxed : Bool)
        (excluded : Option (Finset String)) (choice : ℕ)
        (cs : List Cluster) (c : Cluster),
      find_quote_clusters now quotes (3/5) 5 3 (!relaxed) = Except.ok cs →
      get_cluster_for_digest now quotes relaxed excluded choice =
        Except.ok (some c) →
      c ∈ cs ∧
      (c.anchor_quote.id ∈ excluded.getD ∅ →
        ∀ c' ∈ cs, c'.anchor_quote.id ∈ excluded.getD ∅)) ∧
    (∀ (now : Int) (quotes : List PyQuote) (relaxed : Bool)
        (excluded : Option (Finset String)) (choice : ℕ),
      get_cluster_for_digest now quotes relaxed excluded choice =
        Except.ok Option.none →
      find_quote_clusters now quotes (3/5) 5 3 (!relaxed) = Except.ok []) := by
  constructor
  · intro now quotes relaxed excluded choice cs c hfind hget
    unfold get_cluster_for_digest at hget
    rw [hfind] at hget
    dsimp only at hget
    cases cs with
    | nil => simp at hget
    | cons c0 cs' =>
      by_cases hemp :
          ((c0 :: cs').filter
            (fun c => decide (c.anchor_quote.id ∉ excluded.getD ∅))).isEmpty = true
      · rw [if_pos hemp] at hget
        simp only [Except.ok.injEq] at hget
        obtain ⟨hlt, hc⟩ := List.getElem?_eq_some.mp hget
        have hctop : c ∈ (c0 :: cs').take 3 := by
          rw [← hc]; exact List.getElem_mem hlt
        have hcs : c ∈ c0 :: cs' := List.take_subset 3 _ hctop
        refine ⟨hcs, ?_⟩
        intro _ c' hc'
        have hnil :
            (c0 :: cs').filter
              (fun c => decide (c.anchor_quote.id ∉ excluded.getD ∅)) = [] :=
          List.isEmpty_iff.mp hemp
        have hp := List.filter_eq_nil_iff.mp hnil c' hc'
        simp only [decide_eq_true_eq] at hp
        exact not_not.mp hp
      · rw [if_neg hemp] at hget
        simp only [Except.ok.injEq] at hget
        obtain ⟨hlt, hc⟩ := List.getElem?_eq_some.mp hget
        have hctop : c ∈
            ((c0 :: cs').filter
              (fun c => decide (c.anchor_quote.id ∉ excluded.getD ∅))).take 3 := by
          rw [← hc]; exact List.getElem_mem hlt
        have hcf := List.take_subset 3 _ hctop
        have := List.mem_filter.mp hcf
        refine ⟨this.1, ?_⟩
        intro hex
        have hnot := decide_eq_true_eq.mp this.2
        exact absurd hex hnot
  · intro now quotes relaxed excluded choice hget
    unfold get_cluster_for_digest at hget
    cases hfind : find_quote_clusters now quotes (3/5) 5 3 (!relaxed) with
    | error e => rw [hfind] at hget; cases hget
    | ok cs =>
      rw [hfind] at hget
      dsimp only at hget
      cases cs with
      | nil => rfl
      | cons c0 cs' =>
        exfalso
        by_cases hemp :
            ((c0 :: cs').filter
              (fun c => decide (c.anchor_quote.id ∉ excluded.getD ∅))).isEmpty = true
        · rw [if_pos hemp] at hget
          simp only [Except.ok.injEq] at hget
          have hlen : 0 < ((c0 :: cs').take 3).length := by
            rw [List.length_take]
            exact lt_min (by norm_num) (List.length_pos.mpr (List.cons_ne_nil c0 cs'))
          have hlt := Nat.mod_lt choice hlen
          rw [List.getElem?_eq_getElem hlt] at hget
          cases hget
        · rw [if_neg hemp] at hget
          simp only [Except.ok.injEq] at hget
          have hne :
              (c0 :: cs').filter
                (fun c => decide (c.anchor_quote.id ∉ excluded.getD ∅)) ≠ [] := by
            intro hnil
            rw [hnil] at hemp
            exact hemp rfl
          have hlen : 0 <
              (((c0 :: cs').filter
                (fun c => decide (c.anchor_quote.id ∉ excluded.getD ∅))).take 3).length := by
            rw [List.length_take]
            exact lt_min (by norm_num) (List.length_pos.mpr hne)
          have hlt := Nat.mod_lt choice hlen
          rw [List.getElem?_eq_getElem hlt] at hget
          cases hget

/-- C3: the auto-discovery digest path computes the 7-day exclusion set but
passes it as the keyword argument `excluded_anchor_ids` to
`generate_curator_digest`, whose only parameters are `quotes_with_articles`
and `relaxed` — the call raises `TypeError` for every input, and the
selection call inside `generate_curator_digest` passes no exclusion set to
`get_cluster_for_digest`, so the exclusions never reach cluster selection. -/
theorem autodiscovery_kwarg_typeerror :
    (∀ (now : Int) (quotes : List PyQuote) (excluded_anchors : Finset String)
        (choice : ℕ),
      send_scheduled_digest_autodiscovery now quotes excluded_anchors choice =
        Except.error
          "TypeError: generate_curator_digest() got an unexpected keyword argument excluded_anchor_ids") ∧
    ("excluded_anchor_ids" ∈ curator_digest_call_kwargs ∧
      "excluded_anchor_ids" ∉ generate_curator_digest_params) ∧
    (∀ (now : Int) (quotes : List PyQuote) (relaxed : Bool) (choice : ℕ),
      generate_curator_digest_selection now quotes relaxed choice =
        get_cluster_for_digest now quotes relaxed Option.none choice) := by
  refine ⟨?_, ⟨by decide, by decide⟩, fun _ _ _ _ => rfl⟩
  intro now quotes excluded_anchors choice
  unfold send_scheduled_digest_autodiscovery
  have hcond : ¬ (curator_digest_call_kwargs.all
      (fun k => generate_curator_digest_params.contains k) = true) := by decide
  rw [if_neg hcond]

/-- C8: in the delivery-and-record tail of a digest cycle, history changes
only when a digest was generated and its delivery succeeded, and the change
is an append performed together with the send; when generation produced
nothing or delivery failed, the world is left untouched, so exclusion sets
derived from history are unchanged on failure. -/
theorem history_recorded_only_after_delivery :
    (∀ (w : DigestWorld) (digest : Option Digest) (send_ok : Bool),
      (deliver_and_record w digest send_ok).history ≠ w.history →
      send_ok = true ∧ ∃ d, digest = some d ∧
        (deliver_and_record w digest send_ok).sent_emails =
          w.sent_emails ++ [(d.subject, d.html_body)] ∧
        (deliver_and_record w digest send_ok).history =
          w.history ++
            [⟨d.theme, d.anchor_quote_id, d.anchor_article_id,
              d.cluster_quote_ids⟩]) ∧
    (∀ (w : DigestWorld) (digest : Option Digest) (send_ok : Bool),
      digest = Option.none ∨ send_ok = false →
      deliver_and_record w digest send_ok = w) := by
  constructor
  · intro w digest send_ok hne
    cases digest with
    | none => exact absurd rfl hne
    | some d =>
      cases send_ok with
      | false => exact absurd rfl hne
      | true =>
        refine ⟨rfl, d, rfl, ?_, ?_⟩ <;> simp [deliver_and_record]
  · intro w digest send_ok h
    rcases h with rfl | rfl
    · rfl
    · cases digest with
      | none => rfl
      | some d => simp [deliver_and_record]

/-- C7: `find_quotes_for_category` returns a list sorted by similarity
descending, containing no quote whose id is excluded, whose entries all carry
the similarity of a store match (hence at least the requested threshold
whenever the external similarity search honours its threshold contract), and
of length at most `limit`. -/
theorem find_quotes_for_category_contract :
    ∀ (matching : List QMatch) (all_quotes : List PyQuote) (limit : ℕ)
      (excluded : Option (Finset String)) (t : ℚ),
      List.Sorted simDescLE
        (find_quotes_for_category matching all_quotes limit excluded) ∧
      (∀ p ∈ find_quotes_for_category matching all_quotes limit excluded,
        inExcluded excluded p.1.id = false) ∧
      ((∀ m ∈ matching, t ≤ m.similarity) →
        ∀ p ∈ find_quotes_for_category matching all_quotes limit excluded,
          t ≤ p.2) ∧
      (find_quotes_for_category matching all_quotes limit excluded).length ≤
        limit := by
  intro matching all_quotes limit excluded t
  by_cases hm : matching = []
  · subst hm
    refine ⟨?_, ?_, ?_, ?_⟩ <;> simp [find_quotes_for_category]
  · have hres : find_quotes_for_category matching all_quotes limit excluded =
        (List.insertionSort simDescLE (matching.filterMap (fun m =>
          if inExcluded excluded m.id then Option.none
          else
            match quotes_map_get all_quotes m.id with
            | some q => some (q, m.similarity)
            | Option.none => Option.none))).take limit := by
      unfold find_quotes_for_category
      rw [if_neg hm]
    have hstruct : ∀ p ∈ find_quotes_for_category matching all_quotes limit
        excluded, ∃ m ∈ matching, inExcluded excluded m.id = false ∧
        p.1.id = m.id ∧ p.2 = m.similarity := by
      intro p hp
      rw [hres] at hp
      have hp1 := List.take_subset limit _ hp
      have hp2 := (List.mem_insertionSort simDescLE).mp hp1
      obtain ⟨m, hmm, hf⟩ := List.mem_filterMap.mp hp2
      by_cases hex : inExcluded excluded m.id = true
      · rw [if_pos hex] at hf; cases hf
      · rw [if_neg hex] at hf
        cases hlook : quotes_map_get all_quotes m.id with
        | none => rw [hlook] at hf; cases hf
        | some q =>
          rw [hlook] at hf
          dsimp only at hf
          have hpq : (q, m.similarity) = p := Option.some_inj.mp hf
          subst hpq
          have hqid : q.id = m.id := by
            unfold quotes_map_get at hlook
            have := List.find?_some hlook
            simpa using this
          exact ⟨m, hmm, by simpa using hex, hqid, rfl⟩
    refine ⟨?_, ?_, ?_, ?_⟩
    · rw [hres]
      exact List.Pairwise.sublist (List.take_sublist _ _)
        (List.sorted_insertionSort simDescLE _)
    · intro p hp
      obtain ⟨m, _, hexm, hpid, _⟩ := hstruct p hp
      rw [hpid]
      exact hexm
    · intro hth p hp
      obtain ⟨m, hmm, _, _, hpsim⟩ := hstruct p hp
      rw [hpsim]
      exact hth m hmm
    · rw [hres]
      exact List.length_take_le _ _

/-- C1 (code evaluation at the failing input): with `now = 100`, the sample
corpus forms one qualifying cluster in strict mode whose anchor is the
70-day-old quote, but whose `recent_quotes` contains `sq2`, a quote whose age
(45 days) lies strictly between 30 and 60 days — the unused 30-day cutoff
means mid-band quotes are classified as recent, contradicting the claimed
temporal gap. -/
theorem strict_split_includes_midband_quote :
    find_quote_clusters 100 sampleQuotes (3/5) 5 3 true =
      Except.ok [sampleCluster] ∧
    sq2 ∈ sampleCluster.recent_quotes ∧
    30 < 100 - sq2.created_at ∧ 100 - sq2.created_at < 60 ∧
    sampleCluster.anchor_quote.created_at < 100 - 60 :=
  ⟨sample_eval, by decide, by decide, by decide, by decide⟩

/-! ### Witnesses -/

theorem cosine_unparseable_contract_witness :
    cosine_similarity EmbInput.null (EmbInput.list [1]) =
      Except.ok (PyFloat.val 0) :=
  cosine_unparseable_contract.1 EmbInput.null (EmbInput.list [1]) (Or.inl rfl)

theorem clusters_meet_minimums_witness :
    (5 ≤ sampleCluster.quotes.length ∧
      3 ≤ ((sampleCluster.quotes.map (fun q => q.article_id)).toFinset).card) ∧
    sqb ∈ [sqb] :=
  ⟨clusters_meet_minimums.1 100 sampleQuotes (3/5) 5 3 true [sampleCluster]
      sample_eval sampleCluster (List.mem_singleton.mpr rfl),
   clusters_meet_minimums.2 (3/5) (EmbInput.list [3, 4]) sqb [] [] ["qb"] []
      [sqb] (by decide)
      (by rw [show sqb.embedding = EmbInput.list [5, 0] from rfl]
          exact cos_three_four)
      sample_absorb_ab⟩

theorem split_mode_guarantees_witness :
    (sampleCluster.has_old_anchor = true ∧
      sampleCluster.anchor_quote ∈ sampleCluster.quotes ∧
      sampleCluster.anchor_quote.created_at < 100 - 60 ∧
      2 ≤ sampleCluster.recent_quotes.length ∧
      sampleCluster.recent_quotes.length ≤ 3) ∧
    (sampleCluster.quotes.head? = some sampleCluster.anchor_quote ∧
      sampleCluster.recent_quotes = (sampleCluster.quotes.drop 1).take 3) :=
  ⟨split_mode_guarantees.1 100 sampleQuotes (3/5) 5 3 [sampleCluster]
      sample_eval sampleCluster (List.mem_singleton.mpr rfl),
   split_mode_guarantees.2 100 sampleQuotes (3/5) 5 3 [sampleCluster]
      sample_eval_relaxed sampleCluster (List.mem_singleton.mpr rfl)⟩

theorem clusters_disjoint_and_consumed_witness :
    List.Pairwise clusterDisj [sampleCluster] ∧
    sqa.id ∈ ["qa"] ∧
    sq1.id ∉ ([] : List String) :=
  ⟨clusters_disjoint_and_consumed.1 100 sampleQuotes (3/5) 5 3 true
      [sampleCluster] sample_eval,
   clusters_disjoint_and_consumed.2.1 0 (3/5) 5 3 true [] sqa [] ["qa"] [sqa]
      Option.none sample_step_trivial sqa (List.mem_singleton.mpr rfl),
   clusters_disjoint_and_consumed.2.2 100 (3/5) 5 3 true sampleQuotes
      sampleQuotes [] ["q5", "q4", "q3", "q2", "q1"] [sampleCluster]
      sample_loop sampleCluster (List.mem_singleton.mpr rfl) sq1 (by decide)⟩

theorem get_cluster_for_digest_respects_exclusions_witness :
    sampleCluster ∈ [sampleCluster] ∧
    find_quote_clusters 0 [] (3/5) 5 3 (!false) = Except.ok [] :=
  ⟨(get_cluster_for_digest_respects_exclusions.1 100 sampleQuotes false
      Option.none 0 [sampleCluster] sampleCluster sample_eval sample_get).1,
   get_cluster_for_digest_respects_exclusions.2 0 [] false Option.none 0
      sample_get_empty⟩

theorem history_recorded_only_after_delivery_witness :
    deliver_and_record w0 Option.none true = w0 ∧
    deliver_and_record w0 (some d0) false = w0 ∧
    (deliver_and_record w0 (some d0) true).history =
      w0.history ++ [⟨d0.theme, d0.anchor_quote_id, d0.anchor_article_id,
        d0.cluster_quote_ids⟩] := by
  refine ⟨history_recorded_only_after_delivery.2 w0 Option.none true
      (Or.inl rfl),
    history_recorded_only_after_delivery.2 w0 (some d0) false (Or.inr rfl),
    ?_⟩
  have h := history_recorded_only_after_delivery.1 w0 (some d0) true
    (by decide)
  obtain ⟨_, d, hd, _, hh⟩ := h
  obtain rfl := Option.some_inj.mp hd
  exact hh

theorem find_quotes_for_category_contract_witness :
    List.Sorted simDescLE
      (find_quotes_for_category [⟨"q1", 2⟩, ⟨"q2", 1⟩] [sq1, sq2] 1
        (some {"q2"})) ∧
    (0 : ℚ) ≤ 2 ∧
    (find_quotes_for_category [⟨"q1", 2⟩, ⟨"q2", 1⟩] [sq1, sq2] 1
      (some {"q2"})).length ≤ 1 := by
  have h := find_quotes_for_category_contract [⟨"q1", 2⟩, ⟨"q2", 1⟩]
    [sq1, sq2] 1 (some {"q2"}) 0
  refine ⟨h.1, ?_, h.2.2.2⟩
  have hmem : ((sq1, (2 : ℚ)) : PyQuote × ℚ) ∈
      find_quotes_for_category [⟨"q1", 2⟩, ⟨"q2", 1⟩] [sq1, sq2] 1
        (some {"q2"}) := by decide
  exact h.2.2.1 (by decide) (sq1, (2 : ℚ)) hmem

end RB
